import Mathlib

/-!
Verification development for the jira front-end automation scripts
(`src/create-jira-ticket.js` and the login module `src/jira-login.js`,
plus `config/jira-config.js`).

The JavaScript source is shallowly embedded: the file system is passed
explicitly (`Option (Option StateData)`: missing file / unparsable file /
parsed contents), browser pages are abstracted to the boolean visibility
probes the code actually reads, and every stateful flow is a pure function
from such a world to its result together with the list of externally
visible actions it performed.
-/

set_option maxRecDepth 4000

/-- Stored metadata block written by `saveBrowserState`
(`savedAt`, `dashboardUrl`, `baseUrl`, `userEmail`); every field is
optional because a JSON file on disk may lack any of them. -/
structure StateMetadata where
  savedAt : Option String
  dashboardUrl : Option String
  baseUrl : Option String
  userEmail : Option String
deriving DecidableEq, Repr

/-- A parsed session-state file: the Playwright `storageState` payload
(cookies and per-origin storage, kept abstract as name/value data) plus the
optional `metadata` block (absent in the legacy format). -/
structure StateData where
  cookies : List (String × String)
  origins : List String
  metadata : Option StateMetadata
deriving DecidableEq, Repr

/-- The configuration values `loadBrowserState`/`saveBrowserState` consult:
`JIRA_CONFIG.baseUrl` and `JIRA_CONFIG.credentials.email`. -/
structure Config where
  baseUrl : String
  email : String
deriving DecidableEq, Repr

/-- Default configuration from `config/jira-config.js` (values used when no
environment variables are set). -/
def jiraDefaultConfig : Config :=
  { baseUrl := "https://redventures.atlassian.net"
    email := "olwin@redventures.com" }

/-- Console output of `loadBrowserState`, one constructor per `console`
call in the function body. -/
inductive LoadLog where
  | loadedSaved
  | loadedLegacy
  | mismatchWarning
  | loadErrorWarning
deriving DecidableEq, Repr

/-- Which log lines are warnings (messages flagged with the warning
marker). -/
def LoadLog.isWarning : LoadLog → Bool
  | LoadLog.mismatchWarning => true
  | LoadLog.loadErrorWarning => true
  | _ => false

/-- `loadBrowserState` from `src/jira-login.js`.  The state file is passed
explicitly: `none` = file missing (`fs.existsSync` false), `some none` =
file exists but reading/parsing throws (caught, warning logged),
`some (some st)` = parsed contents.  With metadata present the stored
`baseUrl`/`userEmail` must equal the configured ones or the state is
discarded; without metadata (legacy format) the state is returned as-is. -/
def loadBrowserState (file : Option (Option StateData)) (cfg : Config) :
    Option StateData × List LoadLog :=
  match file with
  | none => (none, [])
  | some none => (none, [LoadLog.loadErrorWarning])
  | some (some st) =>
    match st.metadata with
    | some md =>
      if md.baseUrl = some cfg.baseUrl ∧ md.userEmail = some cfg.email then
        (some st, [LoadLog.loadedSaved])
      else
        (none, [LoadLog.mismatchWarning])
    | none => (some st, [LoadLog.loadedLegacy])

/-- The `storageState()` payload `saveBrowserState` reads from the browser
context before adding metadata. -/
structure StorageState where
  cookies : List (String × String)
  origins : List String
deriving DecidableEq, Repr

/-- `saveBrowserState` from `src/jira-login.js`: spreads the storage state
and adds a `metadata` block with the save time, the current page URL (null
when no page is passed), and the configured base URL and email. -/
def saveBrowserState (st : StorageState) (pageUrl : Option String)
    (now : String) (cfg : Config) : StateData :=
  { cookies := st.cookies
    origins := st.origins
    metadata := some
      { savedAt := some now
        dashboardUrl := pageUrl
        baseUrl := some cfg.baseUrl
        userEmail := some cfg.email } }

/-- C1 counterexample input: with the state file missing, `loadBrowserState`
returns `null` by falling through the `fs.existsSync` guard; no `console`
call runs on that path, so no warning is logged. -/
theorem loadBrowserState_missing_file_logs_nothing :
    loadBrowserState none jiraDefaultConfig = (none, []) ∧
    (loadBrowserState none jiraDefaultConfig).2.any LoadLog.isWarning = false := by
  constructor
  · rfl
  · rfl

/-- C1 (amended): `loadBrowserState` returns none on a missing file (with no
log line at all), on a parse/read error (logging a warning), and on a
metadata identity mismatch (logging a warning); and it never returns a
state whose stored metadata email or base URL differs from the current
configuration. -/
theorem loadBrowserState_spec (file : Option (Option StateData)) (cfg : Config) :
    (file = none → loadBrowserState file cfg = (none, [])) ∧
    (file = some none →
      loadBrowserState file cfg = (none, [LoadLog.loadErrorWarning]) ∧
      (loadBrowserState file cfg).2.any LoadLog.isWarning = true) ∧
    (∀ st md, file = some (some st) → st.metadata = some md →
      ¬(md.baseUrl = some cfg.baseUrl ∧ md.userEmail = some cfg.email) →
      loadBrowserState file cfg = (none, [LoadLog.mismatchWarning]) ∧
      (loadBrowserState file cfg).2.any LoadLog.isWarning = true) ∧
    (∀ st md, (loadBrowserState file cfg).1 = some st → st.metadata = some md →
      md.baseUrl = some cfg.baseUrl ∧ md.userEmail = some cfg.email) := by
  refine ⟨?_, ?_, ?_, ?_⟩
  · rintro rfl; rfl
  · rintro rfl; exact ⟨rfl, rfl⟩
  · rintro st md rfl hmd hne
    have h : loadBrowserState (some (some st)) cfg = (none, [LoadLog.mismatchWarning]) := by
      simp only [loadBrowserState, hmd, if_neg hne]
    exact ⟨h, by rw [h]; rfl⟩
  · intro st md hload hmd
    match file with
    | none => simp [loadBrowserState] at hload
    | some none => simp [loadBrowserState] at hload
    | some (some st') =>
      match hmeta : st'.metadata with
      | none =>
        simp only [loadBrowserState, hmeta] at hload
        cases hload
        rw [hmeta] at hmd
        cases hmd
      | some md' =>
        simp only [loadBrowserState, hmeta] at hload
        by_cases hok : md'.baseUrl = some cfg.baseUrl ∧ md'.userEmail = some cfg.email
        · rw [if_pos hok] at hload
          cases hload
          rw [hmeta] at hmd
          cases hmd
          exact hok
        · rw [if_neg hok] at hload
          cases hload

/-- Metadata of a session-state file saved against a different Jira
instance (used to exercise the identity-mismatch branch). -/
def otherInstanceMeta : StateMetadata :=
  { savedAt := some "2024-01-01"
    dashboardUrl := none
    baseUrl := some "https://other.atlassian.net"
    userEmail := some "olwin@redventures.com" }

/-- A session-state file saved against a different Jira instance. -/
def otherInstanceState : StateData :=
  { cookies := [("c", "v")], origins := [], metadata := some otherInstanceMeta }

/-- C1 witness: the amended theorem evaluated at concrete inputs. -/
theorem loadBrowserState_spec_witness :
    loadBrowserState (some none) jiraDefaultConfig =
      (none, [LoadLog.loadErrorWarning]) ∧
    loadBrowserState (some (some otherInstanceState)) jiraDefaultConfig =
      (none, [LoadLog.mismatchWarning]) := by
  constructor
  · exact ((loadBrowserState_spec (some none) jiraDefaultConfig).2.1 rfl).1
  · exact ((loadBrowserState_spec (some (some otherInstanceState))
      jiraDefaultConfig).2.2.1 otherInstanceState otherInstanceMeta rfl rfl
      (by decide)).1

/-- C2: saving a storage state and immediately loading it under the same
configured identity succeeds and returns the saved state: the cookies and
origins are unchanged and the added metadata carries the configured base
URL and email. -/
theorem save_then_load_round_trip (st : StorageState) (pageUrl : Option String)
    (now : String) (cfg : Config) :
    loadBrowserState (some (some (saveBrowserState st pageUrl now cfg))) cfg =
      (some (saveBrowserState st pageUrl now cfg), [LoadLog.loadedSaved]) ∧
    (saveBrowserState st pageUrl now cfg).cookies = st.cookies ∧
    (saveBrowserState st pageUrl now cfg).origins = st.origins ∧
    (saveBrowserState st pageUrl now cfg).metadata = some
      { savedAt := some now
        dashboardUrl := pageUrl
        baseUrl := some cfg.baseUrl
        userEmail := some cfg.email } := by
  constructor
  · simp [loadBrowserState, saveBrowserState]
  · exact ⟨rfl, rfl, rfl⟩

/-- C9: a session-state file that parses but has no metadata block (legacy
format) is returned as-is by `loadBrowserState`, for every current
configuration, with no identity validation. -/
theorem loadBrowserState_legacy (cookies : List (String × String))
    (origins : List String) (cfg : Config) :
    loadBrowserState
        (some (some { cookies := cookies, origins := origins, metadata := none }))
        cfg =
      (some { cookies := cookies, origins := origins, metadata := none },
        [LoadLog.loadedLegacy]) := by
  rfl

/-- JavaScript `s.includes(sub)`: `sub` occurs as a contiguous substring of
`s`. -/
def jsIncludes (s sub : String) : Bool :=
  decide (sub.toList <:+: s.toList)

/-- The authenticated domain the login flow waits for
(`redventures.atlassian.net`, hard-coded in `loginToJira`). -/
def authDomain : String := "redventures.atlassian.net"

/-- One iteration's success test in the `loginToJira` polling loop:
`newUrl !== currentUrl && newUrl.includes('redventures.atlassian.net')`. -/
def urlChanged (newUrl currentUrl : String) : Bool :=
  decide (newUrl ≠ currentUrl) && jsIncludes newUrl authDomain

/-- The polling deadline in `loginToJira` (`const timeout = 60000`). -/
def loginPollTimeoutMs : Nat := 60000

/-- The fixed polling interval in `loginToJira`
(`await page.waitForTimeout(1000)`). -/
def loginPollIntervalMs : Nat := 1000

/-- The `while (Date.now() - startTime < timeout && !loginSuccessful)` loop
of `loginToJira`, with time idealized so each iteration takes exactly one
interval: iteration `i` reads the page location `urls i`; the remaining
iteration budget is the fuel. -/
def pollIter (urls : Nat → String) (currentUrl : String) : Nat → Nat → Bool
  | _, 0 => false
  | i, Nat.succ fuel =>
    if urlChanged (urls i) currentUrl then true
    else pollIter urls currentUrl (i + 1) fuel

/-- The whole polling phase: up to `timeout / interval` = 60 location
checks starting at iteration 0; returns the final `loginSuccessful` flag. -/
def pollForUrlChange (urls : Nat → String) (currentUrl : String) : Bool :=
  pollIter urls currentUrl 0 (loginPollTimeoutMs / loginPollIntervalMs)

theorem pollIter_true_iff (urls : Nat → String) (currentUrl : String) :
    ∀ (fuel start : Nat),
      pollIter urls currentUrl start fuel = true ↔
        ∃ j, j < fuel ∧ urlChanged (urls (start + j)) currentUrl = true := by
  intro fuel
  induction fuel with
  | zero =>
    intro start
    simp [pollIter]
  | succ n ih =>
    intro start
    rw [pollIter]
    by_cases h : urlChanged (urls start) currentUrl = true
    · rw [if_pos h]
      simp only [true_iff]
      exact ⟨0, Nat.succ_pos n, by simpa using h⟩
    · rw [if_neg h]
      rw [ih (start + 1)]
      constructor
      · rintro ⟨j, hj, hchg⟩
        refine ⟨j + 1, by omega, ?_⟩
        have : start + 1 + j = start + (j + 1) := by omega
        rwa [this] at hchg
      · rintro ⟨j, hj, hchg⟩
        match j with
        | 0 => exact absurd (by simpa using hchg) h
        | Nat.succ j' =>
          refine ⟨j', by omega, ?_⟩
          have : start + (j' + 1) = start + 1 + j' := by omega
          rwa [this] at hchg

/-- C3: the post-submit polling phase checks the page location at the fixed
1-second interval for the bounded 60-second timeout, i.e. exactly 60 polls;
it reports success exactly when some poll within the window sees the
location changed to one containing the authenticated domain, and failure
when no poll before the deadline does. -/
theorem pollForUrlChange_spec (urls : Nat → String) (currentUrl : String) :
    (pollForUrlChange urls currentUrl = true ↔
      ∃ j, j < loginPollTimeoutMs / loginPollIntervalMs ∧
        urlChanged (urls j) currentUrl = true) ∧
    loginPollTimeoutMs / loginPollIntervalMs = 60 := by
  constructor
  · rw [pollForUrlChange, pollIter_true_iff urls currentUrl]
    constructor
    · rintro ⟨j, hj, hchg⟩
      exact ⟨j, hj, by simpa using hchg⟩
    · rintro ⟨j, hj, hchg⟩
      exact ⟨j, hj, by simpa using hchg⟩
  · rfl

/-- JavaScript `parseInt(s)`: skip leading whitespace, optional sign,
longest run of leading digits; `none` plays the role of `NaN`. -/
def jsParseInt (s : String) : Option Int :=
  let cs := s.toList.dropWhile Char.isWhitespace
  let signAndRest : Int × List Char :=
    match cs with
    | '-' :: rest => (-1, rest)
    | '+' :: rest => (1, rest)
    | _ => (1, cs)
  let ds := signAndRest.2.takeWhile Char.isDigit
  if ds.isEmpty then none
  else
    some (signAndRest.1 *
      Int.ofNat (ds.foldl (fun a c => a * 10 + (c.toNat - 48)) 0))

/-- JavaScript `Array.prototype.findIndex`, with `none` for `-1`. -/
def jsFindIndex (p : String → Bool) : List String → Option Nat
  | [] => none
  | x :: xs => if p x then some 0 else (jsFindIndex p xs).map (fun i => i + 1)

/-- The prompt-answer handling shared by every dropdown block of
`createJiraTicket`: `const selectedIndex = parseInt(choice) - 1;
if (selectedIndex >= 0 && selectedIndex < options.length)` selects that
index, anything else (out of range, or `NaN` from an empty or non-numeric
answer) selects nothing. -/
def selectFromPrompt (len : Nat) (ans : String) : Option Nat :=
  match jsParseInt ans with
  | some n =>
    if 0 ≤ n - 1 ∧ n - 1 < (len : Int) then some (n - 1).toNat else none
  | none => none

/-- Whether a prompt answer parses to a 1-based index inside the option
list. -/
def answerInRange (ans : String) (len : Nat) : Bool :=
  match jsParseInt ans with
  | some n => decide (1 ≤ n ∧ n ≤ (len : Int))
  | none => false

/-- The work-type selection of `createJiraTicket` (step 1): a truthy
template `workType` matching an option text by `findIndex` is used without
prompting; otherwise the operator is prompted and the answer handled by
`selectFromPrompt`.  Result: chosen option index (if any) and whether the
prompt ran. -/
def selectWorkType (templateValue : Option String) (opts : List String)
    (ans : String) : Option Nat × Bool :=
  let fromTemplate : Option Nat :=
    match templateValue with
    | some tv => if tv = "" then none else jsFindIndex (fun t => decide (t = tv)) opts
    | none => none
  match fromTemplate with
  | some i => (some i, false)
  | none => (selectFromPrompt opts.length ans, true)

/-- The dropdown selection used by the category-reason, risk-level,
type-of-request and task-classification blocks of `createJiraTicket`: same
template precedence, but the prompt answer is first tested with
`if (choice.trim())` so a blank answer skips without parsing. -/
def selectDropdown (templateValue : Option String) (opts : List String)
    (ans : String) : Option Nat × Bool :=
  let fromTemplate : Option Nat :=
    match templateValue with
    | some tv => if tv = "" then none else jsFindIndex (fun t => decide (t = tv)) opts
    | none => none
  match fromTemplate with
  | some i => (some i, false)
  | none =>
    if ans.trim = "" then (none, true)
    else (selectFromPrompt opts.length ans, true)

theorem jsFindIndex_mem (a : String) :
    ∀ l : List String, a ∈ l →
      ∃ i, jsFindIndex (fun t => decide (t = a)) l = some i ∧ l[i]? = some a := by
  intro l
  induction l with
  | nil => intro h; cases h
  | cons x xs ih =>
    intro h
    by_cases hxa : x = a
    · exact ⟨0, by simp [jsFindIndex, hxa], by simp [hxa]⟩
    · have hmem : a ∈ xs := by
        rcases List.mem_cons.mp h with h1 | h2
        · exact absurd h1.symm hxa
        · exact h2
      obtain ⟨i, hfind, hget⟩ := ih hmem
      exact ⟨i + 1, by simp [jsFindIndex, hxa, hfind], by simpa using hget⟩

theorem jsFindIndex_not_mem (a : String) :
    ∀ l : List String, a ∉ l →
      jsFindIndex (fun t => decide (t = a)) l = none := by
  intro l
  induction l with
  | nil => intro _; rfl
  | cons x xs ih =>
    intro h
    have hxa : ¬(x = a) := by
      intro he
      subst he
      exact h (List.mem_cons_self x xs)
    have hxs : a ∉ xs := fun hm => h (List.mem_cons_of_mem x hm)
    simp [jsFindIndex, hxa, ih hxs]

theorem selectFromPrompt_out_of_range (len : Nat) (ans : String)
    (h : answerInRange ans len = false) : selectFromPrompt len ans = none := by
  cases hp : jsParseInt ans with
  | none => simp [selectFromPrompt, hp]
  | some n =>
    simp only [answerInRange, hp, decide_eq_false_iff_not] at h
    simp only [selectFromPrompt, hp]
    rw [if_neg]
    intro hc
    obtain ⟨hc1, hc2⟩ := hc
    exact h ⟨by omega, by omega⟩

/-- C5: for the dropdown fields (work type and the category-reason-style
blocks), a template value present in the option list by exact text match is
selected without prompting the operator (template values matching a scraped
option are nonempty, since `getAutocompleteOptions` filters out empty
texts); with no matching template value the operator is prompted; and a
prompt answer that is blank or not a 1-based in-range index selects
nothing, so the field is skipped. -/
theorem dropdown_selection_policy (tvO : Option String) (opts : List String)
    (ans : String) :
    (∀ tv, tvO = some tv → tv ≠ "" → tv ∈ opts →
      ∃ i, selectWorkType tvO opts ans = (some i, false) ∧
        selectDropdown tvO opts ans = (some i, false) ∧
        opts[i]? = some tv) ∧
    ((∀ tv, tvO = some tv → tv ∉ opts) →
      (selectWorkType tvO opts ans).2 = true ∧
      (selectDropdown tvO opts ans).2 = true) ∧
    ((∀ tv, tvO = some tv → tv ∉ opts) → answerInRange ans opts.length = false →
      (selectWorkType tvO opts ans).1 = none ∧
      (selectDropdown tvO opts ans).1 = none) := by
  refine ⟨?_, ?_, ?_⟩
  · rintro tv rfl hne hmem
    obtain ⟨i, hfind, hget⟩ := jsFindIndex_mem tv opts hmem
    exact ⟨i, by simp [selectWorkType, hne, hfind],
      by simp [selectDropdown, hne, hfind], hget⟩
  · intro h
    constructor
    · cases tvO with
      | none => simp [selectWorkType]
      | some tv =>
        by_cases hne : tv = ""
        · simp [selectWorkType, hne]
        · simp [selectWorkType, hne, jsFindIndex_not_mem tv opts (h tv rfl)]
    · cases tvO with
      | none =>
        by_cases ht : ans.trim = "" <;> simp [selectDropdown, ht]
      | some tv =>
        by_cases hne : tv = ""
        · by_cases ht : ans.trim = "" <;> simp [selectDropdown, hne, ht]
        · by_cases ht : ans.trim = "" <;>
            simp [selectDropdown, hne, ht, jsFindIndex_not_mem tv opts (h tv rfl)]
  · intro h hrange
    have hnone := selectFromPrompt_out_of_range opts.length ans hrange
    constructor
    · cases tvO with
      | none => simp [selectWorkType, hnone]
      | some tv =>
        by_cases hne : tv = ""
        · simp [selectWorkType, hne, hnone]
        · simp [selectWorkType, hne, jsFindIndex_not_mem tv opts (h tv rfl), hnone]
    · cases tvO with
      | none =>
        by_cases ht : ans.trim = "" <;> simp [selectDropdown, ht, hnone]
      | some tv =>
        by_cases hne : tv = ""
        · by_cases ht : ans.trim = "" <;> simp [selectDropdown, hne, ht, hnone]
        · by_cases ht : ans.trim = "" <;>
            simp [selectDropdown, hne, ht,
              jsFindIndex_not_mem tv opts (h tv rfl), hnone]

/-- C5 witness: the selection policy applied to concrete inputs (template
value `Bug` at index 1 of the option list; an empty and an out-of-range
prompt answer). -/
theorem dropdown_selection_policy_witness :
    selectWorkType (some "Bug") ["Task", "Bug"] "" = (some 1, false) ∧
    selectDropdown (some "Bug") ["Task", "Bug"] "" = (some 1, false) ∧
    (selectWorkType none ["Task", "Bug"] "9").2 = true ∧
    (selectWorkType none ["Task", "Bug"] "9").1 = none ∧
    (selectDropdown none ["Task", "Bug"] "9").1 = none := by
  have h := dropdown_selection_policy (some "Bug") ["Task", "Bug"] ""
  have h9 := dropdown_selection_policy (none : Option String) ["Task", "Bug"] "9"
  have hno : ∀ tv : String, (none : Option String) = some tv → tv ∉ ["Task", "Bug"] :=
    fun tv htv => nomatch htv
  obtain ⟨i, h1, h2, hget⟩ := h.1 "Bug" rfl (by decide) (by decide)
  have hi : i = 1 := by
    rcases i with _ | _ | n
    · exact absurd hget (by decide)
    · rfl
    · simp at hget
  rw [hi] at h1 h2
  obtain ⟨hw9, hd9⟩ := h9.2.2 hno (by decide)
  exact ⟨h1, h2, (h9.2.1 hno).1, hw9, hd9⟩

/-- The JavaScript truthiness test `savedOptions.X && savedOptions.X.length > 0`
guarding each dropdown block: the cache entry exists and is a non-empty
array. -/
def cacheHit (cached : Option (List String)) : Bool :=
  match cached with
  | some l => decide (0 < l.length)
  | none => false

/-- Outcome of resolving one dropdown field's option list in
`createJiraTicket`: the options used, whether a live scrape ran, and the
entry (if any) the run adds to `optionsToSave`. -/
structure FieldOptionsOutcome where
  options : List String
  didScrape : Bool
  cacheWrite : Option (List String)
deriving DecidableEq, Repr

/-- The per-field option resolution repeated for every dropdown in
`createJiraTicket`: on a cache hit the saved texts are used and no scrape
runs; otherwise `getAutocompleteOptions` is called and, when it returned
anything, its texts are recorded in `optionsToSave`. -/
def resolveFieldOptions (cached : Option (List String))
    (scrapeResult : List String) : FieldOptionsOutcome :=
  if cacheHit cached then
    { options := cached.getD [], didScrape := false, cacheWrite := none }
  else
    { options := scrapeResult, didScrape := true,
      cacheWrite := if 0 < scrapeResult.length then some scrapeResult else none }

/-- C6: with no cache entry for a field, the first run scrapes the live
dropdown and records the scraped texts for the cache; a later run whose
cache entry holds that non-empty list uses it directly and performs no
scrape. -/
theorem optionCache_scrape_then_hit (scrapeResult : List String)
    (h : scrapeResult ≠ []) :
    resolveFieldOptions none scrapeResult =
      { options := scrapeResult, didScrape := true,
        cacheWrite := some scrapeResult } ∧
    (∀ laterScrape : List String,
      resolveFieldOptions (some scrapeResult) laterScrape =
        { options := scrapeResult, didScrape := false, cacheWrite := none }) := by
  have hlen : 0 < scrapeResult.length := List.length_pos.mpr h
  constructor
  · simp [resolveFieldOptions, cacheHit, hlen]
  · intro laterScrape
    simp [resolveFieldOptions, cacheHit, hlen]

/-- C6 witness: the theorem at a concrete scraped list. -/
theorem optionCache_scrape_then_hit_witness :
    resolveFieldOptions none ["Bug", "Task"] =
      { options := ["Bug", "Task"], didScrape := true,
        cacheWrite := some ["Bug", "Task"] } ∧
    resolveFieldOptions (some ["Bug", "Task"]) [] =
      { options := ["Bug", "Task"], didScrape := false, cacheWrite := none } := by
  have h := optionCache_scrape_then_hit ["Bug", "Task"] (by decide)
  exact ⟨h.1, h.2 []⟩

/-- The persisted option cache `config/jira-options.json`: one optional
entry per dropdown field handled by `createJiraTicket`. -/
structure OptionsCache where
  workTypes : Option (List String)
  components : Option (List String)
  categoryReasons : Option (List String)
  riskAssessmentLevels : Option (List String)
  typeOfRequest : Option (List String)
  taskClassifications : Option (List String)
deriving DecidableEq, Repr

/-- What one field block contributes during a run: whether the field was
visible, and what a scrape of its dropdown would return. -/
structure FieldScrape where
  visible : Bool
  scrapeResult : List String
deriving DecidableEq, Repr

/-- How one key of `optionsToSave` evolves during a run: it starts as the
loaded entry (`optionsToSave = { ...savedOptions }`) and is overwritten
with freshly scraped texts only when the field was visible, the cache
missed, and the scrape returned something. -/
def updateEntry (old : Option (List String)) (f : FieldScrape) :
    Option (List String) :=
  if f.visible then
    if cacheHit old then old
    else if 0 < f.scrapeResult.length then some f.scrapeResult else old
  else old

/-- Whether a field's entry is freshly scraped during the run. -/
def freshScrape (old : Option (List String)) (f : FieldScrape) : Bool :=
  f.visible && !cacheHit old && decide (0 < f.scrapeResult.length)

/-- The scrape contributions of all six dropdown fields in one run. -/
structure RunScrapes where
  workTypes : FieldScrape
  components : FieldScrape
  categoryReasons : FieldScrape
  riskAssessmentLevels : FieldScrape
  typeOfRequest : FieldScrape
  taskClassifications : FieldScrape
deriving DecidableEq, Repr

/-- The object `saveOptions(optionsToSave)` writes at the end of a run:
the loaded cache extended field by field. -/
def runCacheUpdate (saved : OptionsCache) (s : RunScrapes) : OptionsCache :=
  { workTypes := updateEntry saved.workTypes s.workTypes
    components := updateEntry saved.components s.components
    categoryReasons := updateEntry saved.categoryReasons s.categoryReasons
    riskAssessmentLevels :=
      updateEntry saved.riskAssessmentLevels s.riskAssessmentLevels
    typeOfRequest := updateEntry saved.typeOfRequest s.typeOfRequest
    taskClassifications :=
      updateEntry saved.taskClassifications s.taskClassifications }

theorem updateEntry_spec (old : Option (List String)) (f : FieldScrape) :
    updateEntry old f =
      (if freshScrape old f then some f.scrapeResult else old) ∧
    (old.isSome = true → (updateEntry old f).isSome = true) := by
  constructor
  · unfold updateEntry freshScrape
    by_cases hv : f.visible <;>
      by_cases hh : cacheHit old <;>
        by_cases hl : 0 < f.scrapeResult.length <;>
          simp [hv, hh, hl]
  · intro hsome
    unfold updateEntry
    by_cases hv : f.visible <;>
      by_cases hh : cacheHit old <;>
        by_cases hl : 0 < f.scrapeResult.length <;>
          simp [hv, hh, hl, hsome]

/-- C10: the option-cache object written at the end of a run is the loaded
cache extended with freshly scraped lists: a key present before the run is
still present afterwards, and its value is unchanged unless that field was
freshly scraped during the run. -/
theorem runCacheUpdate_preserves_entries (saved : OptionsCache) (s : RunScrapes) :
    ((saved.workTypes.isSome = true →
        (runCacheUpdate saved s).workTypes.isSome = true) ∧
      (freshScrape saved.workTypes s.workTypes = false →
        (runCacheUpdate saved s).workTypes = saved.workTypes)) ∧
    ((saved.components.isSome = true →
        (runCacheUpdate saved s).components.isSome = true) ∧
      (freshScrape saved.components s.components = false →
        (runCacheUpdate saved s).components = saved.components)) ∧
    ((saved.categoryReasons.isSome = true →
        (runCacheUpdate saved s).categoryReasons.isSome = true) ∧
      (freshScrape saved.categoryReasons s.categoryReasons = false →
        (runCacheUpdate saved s).categoryReasons = saved.categoryReasons)) ∧
    ((saved.riskAssessmentLevels.isSome = true →
        (runCacheUpdate saved s).riskAssessmentLevels.isSome = true) ∧
      (freshScrape saved.riskAssessmentLevels s.riskAssessmentLevels = false →
        (runCacheUpdate saved s).riskAssessmentLevels =
          saved.riskAssessmentLevels)) ∧
    ((saved.typeOfRequest.isSome = true →
        (runCacheUpdate saved s).typeOfRequest.isSome = true) ∧
      (freshScrape saved.typeOfRequest s.typeOfRequest = false →
        (runCacheUpdate saved s).typeOfRequest = saved.typeOfRequest)) ∧
    ((saved.taskClassifications.isSome = true →
        (runCacheUpdate saved s).taskClassifications.isSome = true) ∧
      (freshScrape saved.taskClassifications s.taskClassifications = false →
        (runCacheUpdate saved s).taskClassifications =
          saved.taskClassifications)) := by
  have key : ∀ (old : Option (List String)) (f : FieldScrape),
      (old.isSome = true → (updateEntry old f).isSome = true) ∧
      (freshScrape old f = false → updateEntry old f = old) := by
    intro old f
    obtain ⟨heq, hsome⟩ := updateEntry_spec old f
    refine ⟨hsome, ?_⟩
    intro hfresh
    rw [heq, hfresh]
    simp
  exact ⟨⟨(key saved.workTypes s.workTypes).1, (key saved.workTypes s.workTypes).2⟩,
    ⟨(key saved.components s.components).1, (key saved.components s.components).2⟩,
    ⟨(key saved.categoryReasons s.categoryReasons).1,
      (key saved.categoryReasons s.categoryReasons).2⟩,
    ⟨(key saved.riskAssessmentLevels s.riskAssessmentLevels).1,
      (key saved.riskAssessmentLevels s.riskAssessmentLevels).2⟩,
    ⟨(key saved.typeOfRequest s.typeOfRequest).1,
      (key saved.typeOfRequest s.typeOfRequest).2⟩,
    ⟨(key saved.taskClassifications s.taskClassifications).1,
      (key saved.taskClassifications s.taskClassifications).2⟩⟩

/-- A cache with only the work-type entry populated. -/
def cacheOnlyWorkTypes : OptionsCache :=
  { workTypes := some ["Bug", "Task"]
    components := none
    categoryReasons := none
    riskAssessmentLevels := none
    typeOfRequest := none
    taskClassifications := none }

/-- A run that scrapes only the components field. -/
def scrapesOnlyComponents : RunScrapes :=
  { workTypes := { visible := true, scrapeResult := [] }
    components := { visible := true, scrapeResult := ["Web", "API"] }
    categoryReasons := { visible := false, scrapeResult := [] }
    riskAssessmentLevels := { visible := false, scrapeResult := [] }
    typeOfRequest := { visible := false, scrapeResult := [] }
    taskClassifications := { visible := false, scrapeResult := [] } }

/-- C10 witness: a pre-existing work-type entry survives a run that freshly
scrapes only the components field. -/
theorem runCacheUpdate_preserves_entries_witness :
    (runCacheUpdate cacheOnlyWorkTypes scrapesOnlyComponents).workTypes.isSome =
      true ∧
    (runCacheUpdate cacheOnlyWorkTypes scrapesOnlyComponents).workTypes =
      cacheOnlyWorkTypes.workTypes := by
  have h := runCacheUpdate_preserves_entries cacheOnlyWorkTypes scrapesOnlyComponents
  exact ⟨h.1.1 (by decide), h.1.2 (by decide)⟩

/-- The page facts the login code reads: visibility of the
`Log in to continue` heading and its text, visibility of the create button
(primary and fallback selectors), and visibility of the username input. -/
structure PageProbe where
  loginHeadingVisible : Bool
  loginHeadingText : String
  createButtonVisible : Bool
  createFallbackVisible : Bool
  usernameVisible : Bool
deriving DecidableEq, Repr

/-- `checkLoggedIn` from `src/jira-login.js`: a visible heading whose text
contains `Log in to continue` means logged out; otherwise a visible create
button (primary, else fallback selector) means logged in. -/
def checkLoggedIn (p : PageProbe) : Bool :=
  if p.loginHeadingVisible &&
      (decide (p.loginHeadingText ≠ "") &&
        jsIncludes p.loginHeadingText "Log in to continue") then
    false
  else if !p.createButtonVisible then
    p.createFallbackVisible
  else
    true

/-- The externally visible steps of the login flows, one constructor per
side-effecting phase of `loginToJira`/`ensureLoggedIn`. -/
inductive LoginAction where
  | invokeLogin
  | resumeNavigate
  | navigateDashboard
  | fillUsername
  | pressEnter
  | waitFingerprint
  | enterPollLoop
  | saveStateAct
  | closeBrowserAct
deriving DecidableEq, Repr

/-- The environment one `loginToJira` call runs against: the session-state
file, the configuration, whether navigating to the saved dashboard URL
throws, the page contents seen after the resume navigation and after the
dashboard navigation, the location read after the fixed 10-second
fingerprint wait, the locations read by the polling loop, and the page
contents at the late `checkLoggedIn` re-check. -/
structure LoginWorld where
  fileState : Option (Option StateData)
  cfg : Config
  resumeGotoFails : Bool
  resumeProbe : PageProbe
  dashboardProbe : PageProbe
  urlAfterWait : String
  pollUrls : Nat → String
  lateProbe : PageProbe

/-- Result of a login flow: the returned `success` flag plus the trace of
actions performed. -/
structure LoginResult where
  success : Bool
  actions : List LoginAction

/-- The `savedState && savedState.metadata && savedState.metadata.dashboardUrl`
truthiness test guarding the resume attempt in `loginToJira`. -/
def hasResumeUrl (savedState : Option StateData) : Bool :=
  match savedState with
  | some st =>
    match st.metadata with
    | some md =>
      match md.dashboardUrl with
      | some u => decide (u ≠ "")
      | none => false
    | none => false
  | none => false

/-- `loginToJira` from `src/jira-login.js` (with `saveState` at its default
`true`): try to resume from the saved dashboard URL and return success when
a create button is visible there; otherwise navigate to the board, return
success immediately when `checkLoggedIn` holds; otherwise, with the
username input visible, fill it, press Enter, wait 10 s, and succeed at
once if the location already contains the authenticated domain, else run
the 60-second polling loop; with no username input, re-check
`checkLoggedIn` and fail if it still does not hold. -/
def loginToJira (w : LoginWorld) : LoginResult :=
  let savedState := (loadBrowserState w.fileState w.cfg).1
  let preActions :=
    if hasResumeUrl savedState then [LoginAction.resumeNavigate] else []
  let resumeSuccess :=
    hasResumeUrl savedState && !w.resumeGotoFails &&
      (w.resumeProbe.createButtonVisible || w.resumeProbe.createFallbackVisible)
  if resumeSuccess then
    { success := true, actions := preActions }
  else if checkLoggedIn w.dashboardProbe then
    { success := true, actions := preActions ++ [LoginAction.navigateDashboard] }
  else if w.dashboardProbe.usernameVisible then
    if jsIncludes w.urlAfterWait authDomain then
      { success := true
        actions := preActions ++
          [LoginAction.navigateDashboard, LoginAction.fillUsername,
            LoginAction.pressEnter, LoginAction.waitFingerprint,
            LoginAction.saveStateAct, LoginAction.closeBrowserAct] }
    else if pollForUrlChange w.pollUrls w.urlAfterWait then
      { success := true
        actions := preActions ++
          [LoginAction.navigateDashboard, LoginAction.fillUsername,
            LoginAction.pressEnter, LoginAction.waitFingerprint,
            LoginAction.enterPollLoop, LoginAction.saveStateAct,
            LoginAction.closeBrowserAct] }
    else
      { success := false
        actions := preActions ++
          [LoginAction.navigateDashboard, LoginAction.fillUsername,
            LoginAction.pressEnter, LoginAction.waitFingerprint,
            LoginAction.enterPollLoop] }
  else if checkLoggedIn w.lateProbe then
    { success := true, actions := preActions ++ [LoginAction.navigateDashboard] }
  else
    { success := false, actions := preActions ++ [LoginAction.navigateDashboard] }

/-- C4: when the already-authenticated marker is visible on the freshly
loaded dashboard (`checkLoggedIn` holds on the first probe), `loginToJira`
returns success without filling the identity field, without the
out-of-band-authentication wait, and without entering the polling loop. -/
theorem loginToJira_already_authenticated (w : LoginWorld)
    (h : checkLoggedIn w.dashboardProbe = true) :
    (loginToJira w).success = true ∧
    LoginAction.fillUsername ∉ (loginToJira w).actions ∧
    LoginAction.waitFingerprint ∉ (loginToJira w).actions ∧
    LoginAction.enterPollLoop ∉ (loginToJira w).actions := by
  simp only [loginToJira, h]
  by_cases hres : (hasResumeUrl (loadBrowserState w.fileState w.cfg).1 &&
      !w.resumeGotoFails &&
      (w.resumeProbe.createButtonVisible || w.resumeProbe.createFallbackVisible)) = true
  · simp only [hres, if_true]
    refine ⟨by simp, ?_, ?_, ?_⟩ <;>
      · by_cases hru : hasResumeUrl (loadBrowserState w.fileState w.cfg).1 = true <;>
          simp [hru]
  · simp only [hres]
    simp only [Bool.false_eq_true, if_false, if_true]
    refine ⟨by simp, ?_, ?_, ?_⟩ <;>
      · by_cases hru : hasResumeUrl (loadBrowserState w.fileState w.cfg).1 = true <;>
          simp [hru]

/-- A dashboard page showing the create button and no login prompt. -/
def loggedInProbe : PageProbe :=
  { loginHeadingVisible := false
    loginHeadingText := ""
    createButtonVisible := true
    createFallbackVisible := false
    usernameVisible := false }

/-- A dashboard page showing the login prompt and the username input. -/
def loggedOutProbe : PageProbe :=
  { loginHeadingVisible := true
    loginHeadingText := "Log in to continue"
    createButtonVisible := false
    createFallbackVisible := false
    usernameVisible := true }

/-- A login environment whose dashboard already shows the create button. -/
def alreadyLoggedInWorld : LoginWorld :=
  { fileState := none
    cfg := jiraDefaultConfig
    resumeGotoFails := false
    resumeProbe := loggedOutProbe
    dashboardProbe := loggedInProbe
    urlAfterWait := ""
    pollUrls := fun _ => ""
    lateProbe := loggedOutProbe }

/-- C4 witness: the already-authenticated fast path on a concrete world. -/
theorem loginToJira_already_authenticated_witness :
    (loginToJira alreadyLoggedInWorld).success = true ∧
    LoginAction.fillUsername ∉ (loginToJira alreadyLoggedInWorld).actions ∧
    LoginAction.waitFingerprint ∉ (loginToJira alreadyLoggedInWorld).actions ∧
    LoginAction.enterPollLoop ∉ (loginToJira alreadyLoggedInWorld).actions :=
  loginToJira_already_authenticated alreadyLoggedInWorld (by decide)

/-- The environment one `ensureLoggedIn` call runs against: the initial
session-state file, the worlds of its (up to two) `loginToJira` calls, and
the pages seen by its two `checkLoggedIn` verifications. -/
structure EnsureWorld where
  cfg : Config
  fileState0 : Option (Option StateData)
  firstLogin : LoginWorld
  verifyProbe1 : PageProbe
  secondLogin : LoginWorld
  verifyProbe2 : PageProbe

/-- The verification phase of `ensureLoggedIn`: restore a browser from the
saved state, navigate, and `checkLoggedIn`; when that fails, close the
browser, run `loginToJira` again, rebuild a browser from the newly saved
state and re-verify. -/
def ensureVerify (acc : List LoginAction) (w : EnsureWorld) : LoginResult :=
  if checkLoggedIn w.verifyProbe1 then
    { success := true, actions := acc }
  else
    let r2 := loginToJira w.secondLogin
    if !r2.success then
      { success := false, actions := acc ++ LoginAction.invokeLogin :: r2.actions }
    else if checkLoggedIn w.verifyProbe2 then
      { success := true, actions := acc ++ LoginAction.invokeLogin :: r2.actions }
    else
      { success := false, actions := acc ++ LoginAction.invokeLogin :: r2.actions }

/-- `ensureLoggedIn` from `src/jira-login.js`: with no usable saved session
it first runs `loginToJira`; then (in every case) it restores a browser
from the saved state and verifies with `checkLoggedIn`, running
`loginToJira` once more when the verification fails. -/
def ensureLoggedIn (w : EnsureWorld) : LoginResult :=
  match (loadBrowserState w.fileState0 w.cfg).1 with
  | none =>
    let r1 := loginToJira w.firstLogin
    if !r1.success then
      { success := false, actions := LoginAction.invokeLogin :: r1.actions }
    else
      ensureVerify (LoginAction.invokeLogin :: r1.actions) w
  | some _ => ensureVerify [] w

/-- Number of login cycles in a trace: occurrences of the
fill-identity-field step (each is followed by the out-of-band wait). -/
def loginCycles (acts : List LoginAction) : Nat :=
  acts.count LoginAction.fillUsername

theorem loginToJira_fill_count (w : LoginWorld) :
    (loginToJira w).actions.count LoginAction.fillUsername ≤ 1 := by
  simp only [loginToJira]
  split_ifs <;> simp [List.count_append, List.count_cons, List.count_nil]

theorem ensureVerify_fill_count (acc : List LoginAction) (w : EnsureWorld) :
    (ensureVerify acc w).actions.count LoginAction.fillUsername ≤
      acc.count LoginAction.fillUsername + 1 := by
  have h2 := loginToJira_fill_count w.secondLogin
  simp only [ensureVerify]
  split_ifs <;> simp [List.count_append, List.count_cons] <;> omega

/-- A login environment that reaches the fill-identity step and succeeds
right after the 10-second out-of-band wait. -/
def freshLoginWorld : LoginWorld :=
  { fileState := none
    cfg := jiraDefaultConfig
    resumeGotoFails := false
    resumeProbe := loggedOutProbe
    dashboardProbe := loggedOutProbe
    urlAfterWait := "https://redventures.atlassian.net/jira/software"
    pollUrls := fun _ => ""
    lateProbe := loggedOutProbe }

/-- An `ensureLoggedIn` environment with no saved session whose first
(successful) login produces a session that still fails the
`checkLoggedIn` verification. -/
def doubleLoginWorld : EnsureWorld :=
  { cfg := jiraDefaultConfig
    fileState0 := none
    firstLogin := freshLoginWorld
    verifyProbe1 := loggedOutProbe
    secondLogin := freshLoginWorld
    verifyProbe2 := loggedInProbe }

/-- C7 counterexample: a run of `ensureLoggedIn` that performs two complete
login cycles — the first login succeeds, its restored session fails the
verification, and the whole login flow is invoked again. -/
theorem ensureLoggedIn_two_login_cycles :
    loginCycles (ensureLoggedIn doubleLoginWorld).actions = 2 ∧
    (ensureLoggedIn doubleLoginWorld).actions.count LoginAction.invokeLogin = 2 := by
  constructor
  · decide
  · decide

/-- C7 (amended): one `loginToJira` call attempts at most one login cycle
(one fill-identity-and-wait sequence), and it never retries after a
failure; but `ensureLoggedIn` may invoke the whole login flow a second
time when the session left by a successful first login still fails its
`checkLoggedIn` verification, so a run attempts at most two login cycles,
not one. -/
theorem login_cycles_bounded (w1 : LoginWorld) (w : EnsureWorld) :
    loginCycles (loginToJira w1).actions ≤ 1 ∧
    loginCycles (ensureLoggedIn w).actions ≤ 2 := by
  constructor
  · exact loginToJira_fill_count w1
  · unfold loginCycles
    cases hload : (loadBrowserState w.fileState0 w.cfg).1 with
    | none =>
      have h1 := loginToJira_fill_count w.firstLogin
      have hv := ensureVerify_fill_count
        (LoginAction.invokeLogin :: (loginToJira w.firstLogin).actions) w
      simp only [ensureLoggedIn, hload]
      split_ifs with hs
      · simp [List.count_cons]
        omega
      · simp [List.count_cons] at hv
        omega
    | some st =>
      have hv := ensureVerify_fill_count [] w
      simp only [ensureLoggedIn, hload]
      simp [List.count_nil] at hv
      omega

/-- Visibility of one form field's two selectors, as observed by the
`isVisible().catch(() => false)` probes of `createJiraTicket`. -/
structure FieldProbe where
  primaryVisible : Bool
  fallbackVisible : Bool
deriving DecidableEq, Repr

/-- Outcome of one field-filling step. -/
inductive StepOutcome where
  | filled
  | skippedNotFound
deriving DecidableEq, Repr

/-- One field-filling step of `createJiraTicket` (the policy shared by all
ten field blocks): probe the primary selector, fall back to the secondary
one, fill when either is visible, otherwise log a `not found` warning and
skip.  Result: the outcome and whether the warning was logged. -/
def fieldFillStep (p : FieldProbe) : StepOutcome × Bool :=
  if p.primaryVisible || p.fallbackVisible then
    (StepOutcome.filled, false)
  else
    (StepOutcome.skippedNotFound, true)

/-- Each field block may only end in an exception if one escaped a step;
since every element probe is wrapped in `.catch(() => false)` and the
not-found case is an ordinary `else` branch, a step never throws. -/
def fieldFillStepE (p : FieldProbe) : Except String (StepOutcome × Bool) :=
  Except.ok (fieldFillStep p)

/-- The form-filling phase: the fixed sequence of field steps, run in the
exception monad so that a thrown step would abort the remaining fields
(as the surrounding `try`/`catch` of `createJiraTicket` would). -/
def fillFields (fields : List FieldProbe) :
    Except String (List (StepOutcome × Bool)) :=
  fields.foldlM (fun acc p => (fieldFillStepE p).map (fun r => acc ++ [r])) []

/-- The work-type locator resolution of `createJiraTicket` step 1: a
visible label leads to the input named by its `for` attribute (else a
sibling input); an invisible or unusable primary locator falls back to the
id/role selector. -/
structure WorkTypeLocator where
  labelVisible : Bool
  forAttr : Option String
  labeledInputVisible : Bool
  siblingInputVisible : Bool
  fallbackInputVisible : Bool
deriving DecidableEq, Repr

/-- Visibility of the primary (label-derived) work-type input. -/
def workTypePrimaryVisible (l : WorkTypeLocator) : Bool :=
  if l.labelVisible then
    match l.forAttr with
    | some _ => l.labeledInputVisible
    | none => l.siblingInputVisible
  else
    false

/-- The work-type field as a primary/fallback probe pair. -/
def workTypeProbe (l : WorkTypeLocator) : FieldProbe :=
  { primaryVisible := workTypePrimaryVisible l
    fallbackVisible := l.fallbackInputVisible }

theorem fillFields_ok (fields : List FieldProbe) :
    fillFields fields = Except.ok (fields.map fieldFillStep) := by
  suffices h : ∀ acc : List (StepOutcome × Bool),
      fields.foldlM
        (fun acc p => (fieldFillStepE p).map (fun r => acc ++ [r])) acc =
        Except.ok (acc ++ fields.map fieldFillStep) by
    simpa [fillFields] using h []
  induction fields with
  | nil =>
    intro acc
    simp only [List.foldlM, List.map_nil, List.append_nil]
    rfl
  | cons p ps ih =>
    intro acc
    have hstep :
        (p :: ps).foldlM
          (fun acc q => (fieldFillStepE q).map (fun r => acc ++ [r])) acc =
        ps.foldlM
          (fun acc q => (fieldFillStepE q).map (fun r => acc ++ [r]))
          (acc ++ [fieldFillStep p]) := rfl
    rw [hstep, ih (acc ++ [fieldFillStep p])]
    simp

/-- C8: every field-filling step with neither selector visible is skipped
with a warning; the form-filling phase never aborts — it returns one
outcome per field, whatever the visibility of the fields — and in
particular the work-type block is skipped (not thrown) when both its
label-derived locator and its fallback selector are invisible. -/
theorem fieldStep_skip_policy (fields : List FieldProbe) :
    fillFields fields = Except.ok (fields.map fieldFillStep) ∧
    (∀ p : FieldProbe, p.primaryVisible = false → p.fallbackVisible = false →
      fieldFillStep p = (StepOutcome.skippedNotFound, true)) ∧
    (∀ l : WorkTypeLocator, workTypePrimaryVisible l = false →
      l.fallbackInputVisible = false →
      fieldFillStep (workTypeProbe l) = (StepOutcome.skippedNotFound, true)) := by
  refine ⟨fillFields_ok fields, ?_, ?_⟩
  · intro p h1 h2
    simp [fieldFillStep, h1, h2]
  · intro l h1 h2
    simp [fieldFillStep, workTypeProbe, h1, h2]

/-- C8 witness: a run over one missing and one present field. -/
theorem fieldStep_skip_policy_witness :
    fillFields [{ primaryVisible := false, fallbackVisible := false },
        { primaryVisible := true, fallbackVisible := false }] =
      Except.ok [(StepOutcome.skippedNotFound, true), (StepOutcome.filled, false)] ∧
    fieldFillStep { primaryVisible := false, fallbackVisible := false } =
      (StepOutcome.skippedNotFound, true) := by
  have h := fieldStep_skip_policy
    [{ primaryVisible := false, fallbackVisible := false },
      { primaryVisible := true, fallbackVisible := false }]
  refine ⟨?_, h.2.1 { primaryVisible := false, fallbackVisible := false } rfl rfl⟩
  rw [h.1]
  rfl
